import Mathlib

/-!
# Verification of the XER schedule extractor (`app.py`)

A shallow embedding of the `XerParser` class of `src/app.py` together with
proofs about the table extractor, the relationship graph builder, the task
enricher, the schedule metrics calculator and the critical path identifier.

Python semantics are modelled as follows: Python `float` values coming out of
`_safe_float` are rationals (`ℚ`); Python `int` is `ℤ`; dynamically typed
values that may be a string, a number or `None` are the inductive `PyVal`;
Python `dict` objects keyed by strings are association lists whose insert
semantics (update in place, preserve insertion order, append new keys) are
those of CPython dictionaries; operations that can raise return `Except`.
-/

set_option autoImplicit false

namespace Xer

/-! ## Python value model -/

/-- A dynamically typed Python value as it occurs in this program:
`None`, an `int`, a `float`, or a `str`. -/
inductive PyVal where
  | none : PyVal
  | int : ℤ → PyVal
  | float : ℚ → PyVal
  | str : String → PyVal
deriving DecidableEq

/-- Python truthiness test (`bool(v)`) restricted to the values of `PyVal`:
`None`, `0`, `0.0` and the empty string are falsy. -/
def pyFalsy : PyVal → Bool
  | PyVal.none => true
  | PyVal.int n => n = 0
  | PyVal.float q => q = 0
  | PyVal.str s => s = ""

/-- Decimal digit characters. -/
def isDigitChar (c : Char) : Bool :=
  48 ≤ c.toNat && c.toNat ≤ 57

/-- Numeric value of a list of decimal digit characters. -/
def digitsToNat (l : List Char) : ℕ :=
  l.foldl (fun a c => a * 10 + (c.toNat - 48)) 0

/-- Python whitespace characters (the set stripped by `str.strip()`). -/
def pyIsSpace (c : Char) : Bool :=
  c = ' ' || c = '\t' || c = '\n' || c = '\r' || c = '\x0b' || c = '\x0c'

/-- `str.strip()` on a list of characters. -/
def pyStripList (l : List Char) : List Char :=
  ((l.dropWhile pyIsSpace).reverse.dropWhile pyIsSpace).reverse

/-- Python `str.strip()`. -/
def pyStrip (s : String) : String :=
  String.mk (pyStripList s.data)

/-- Modelled from the spec and the Python standard library: the `float(str)`
builtin on decimal literals, as used by `_safe_float`.  Accepts an optional
sign followed by a decimal literal (`123`, `1.5`, `.5`, `5.`); leading and
trailing whitespace is ignored; anything else fails.  (Exponent and
inf/nan forms, which no schedule field uses, are not modelled and fail.) -/
def parseUnsignedDec (l : List Char) : Option ℚ :=
  let ip := l.takeWhile isDigitChar
  let rest := l.drop ip.length
  match rest with
  | [] => if ip.isEmpty then Option.none else some ((digitsToNat ip : ℕ) : ℚ)
  | c :: frac =>
    if c = '.' && frac.all isDigitChar && (!ip.isEmpty || !frac.isEmpty) then
      some (((digitsToNat ip : ℕ) : ℚ) + ((digitsToNat frac : ℕ) : ℚ) / ((10 : ℚ) ^ frac.length))
    else Option.none

/-- Modelled from the Python standard library: `float(s)` for a string `s`. -/
def parsePyFloat (s : String) : Option ℚ :=
  match pyStripList s.data with
  | '-' :: rest => (parseUnsignedDec rest).map Neg.neg
  | '+' :: rest => parseUnsignedDec rest
  | l => parseUnsignedDec l

/-- The `float(value)` builtin on a `PyVal`: `None` raises `TypeError`,
unparseable strings raise `ValueError`; both are modelled as `Option.none`. -/
def pyFloat : PyVal → Option ℚ
  | PyVal.none => Option.none
  | PyVal.int n => some (n : ℚ)
  | PyVal.float q => some q
  | PyVal.str s => parsePyFloat s

/-- `XerParser._safe_float`: return `default` for falsy values
(empty string, `None`, numeric zero), otherwise `float(value)`, falling back
to `default` when the conversion raises `ValueError` or `TypeError`. -/
def _safe_float (value : PyVal) (default : ℚ) : ℚ :=
  if pyFalsy value then default
  else (pyFloat value).getD default

/-! ## Rendering numbers as Python renders them in f-strings -/

/-- One decimal digit as a character. -/
def digitChar (n : ℕ) : Char :=
  Char.ofNat (48 + n)

/-- Decimal digits of a natural number (fuel-based helper). -/
def natDigitsAux : ℕ → ℕ → List Char
  | _, 0 => []
  | n, fuel + 1 =>
    if n < 10 then [digitChar n]
    else natDigitsAux (n / 10) fuel ++ [digitChar (n % 10)]

/-- Decimal string of a natural number. -/
def natToString (n : ℕ) : String :=
  String.mk (natDigitsAux n (n + 1))

/-- Decimal string of an integer, as Python `str(int)` writes it. -/
def intToString (i : ℤ) : String :=
  if i < 0 then "-" ++ natToString i.natAbs else natToString i.natAbs

/-- Smallest `k` (starting from `k0`, with `fuel` attempts) such that
`d` divides `10 ^ k`. -/
def findPow10 (d : ℕ) : ℕ → ℕ → Option ℕ
  | _, 0 => Option.none
  | k0, fuel + 1 => if d ∣ 10 ^ k0 then some k0 else findPow10 d (k0 + 1) fuel

/-- Modelled from the Python standard library: `str(float)` for the
nonnegative finite decimal values this program produces: an integral value is
written with a trailing `.0`; other decimal values are written positionally.
Rationals that are not decimal fractions are written as fractions
(unreachable from parsed input). -/
def floatReprNN (q : ℚ) : String :=
  match findPow10 q.den 0 (q.den + 1) with
  | some 0 => natToString q.num.natAbs ++ ".0"
  | some k =>
    let scaled := q.num.natAbs * (10 ^ k / q.den)
    let s := natDigitsAux scaled (scaled + 1)
    let s := if s.length ≤ k then List.replicate (k + 1 - s.length) (digitChar 0) ++ s else s
    String.mk (s.take (s.length - k)) ++ "." ++ String.mk (s.drop (s.length - k))
  | Option.none => natToString q.num.natAbs ++ "/" ++ natToString q.den

/-- Modelled from the Python standard library: `str(float)` / f-string
interpolation of a float value. -/
def floatRepr (q : ℚ) : String :=
  if q < 0 then "-" ++ floatReprNN (-q) else floatReprNN q

/-! ## Relationship-type and lag descriptions -/

/-- `XerParser._describe_relationship_type`: the fixed code → prose lookup
with pass-through default (`relationship_types.get(rel_type, rel_type)`). -/
def _describe_relationship_type (rel_type : String) : String :=
  if rel_type = "PR_FS" then "Finish-to-Start (must finish before successor can start)"
  else if rel_type = "PR_SS" then "Start-to-Start (must start before successor can start)"
  else if rel_type = "PR_FF" then "Finish-to-Finish (must finish before successor can finish)"
  else if rel_type = "PR_SF" then "Start-to-Finish (must start before successor can finish)"
  else rel_type

/-- A Python number (`int` or `float`), as passed to `_describe_lag`. -/
inductive PyNum where
  | int : ℤ → PyNum
  | float : ℚ → PyNum
deriving DecidableEq

/-- The numeric value of a Python number. -/
def PyNum.val : PyNum → ℚ
  | PyNum.int n => (n : ℚ)
  | PyNum.float q => q

/-- Python `abs` on a number, preserving its type. -/
def PyNum.abs : PyNum → PyNum
  | PyNum.int n => PyNum.int n.natAbs
  | PyNum.float q => PyNum.float |q|

/-- f-string interpolation of a Python number. -/
def PyNum.repr : PyNum → String
  | PyNum.int n => intToString n
  | PyNum.float q => floatRepr q

/-- `XerParser._describe_lag`: human readable description of a lag value.
`if not lag` is numeric falsiness, i.e. the value equals zero. -/
def _describe_lag (lag : PyNum) : String :=
  if lag.val = 0 then "No lag time"
  else if 0 < lag.val then "With " ++ lag.repr ++ " hour(s) lag time after"
  else "With " ++ lag.abs.repr ++ " hour(s) lead time before"

/-! ## CPython dictionaries as association lists -/

/-- `d[k] = v` on a CPython dict: update the value in place when the key is
already present (keeping its insertion position), otherwise append the new
binding at the end. -/
def alistUpdate {α : Type} (m : List (String × α)) (k : String) (v : α) : List (String × α) :=
  if m.any (fun p => p.1 = k) then m.map (fun p => if p.1 = k then (k, v) else p)
  else m ++ [(k, v)]

/-- `d.get(k)` on a CPython dict: the value of the first (and only) binding
of `k`, if any. -/
def alistGet? {α : Type} (m : List (String × α)) (k : String) : Option α :=
  (m.find? (fun p => p.1 = k)).map Prod.snd

/-- `dict(pairs)`: fold the pairs into an initially empty dict. -/
def pyDict {α : Type} (ps : List (String × α)) : List (String × α) :=
  ps.foldl (fun d p => alistUpdate d p.1 p.2) []

/-- A parsed row: a CPython dict from field name to raw string value. -/
abbrev Record := List (String × String)

/-- `row.get(k, d)` with a string default. -/
def recGetD (row : Record) (k d : String) : String :=
  (alistGet? row k).getD d

/-- `row.get(k, 0)`, as handed to `_safe_float`: the raw string when the key
is present, the integer `0` otherwise. -/
def recGetNum (row : Record) (k : String) : PyVal :=
  match alistGet? row k with
  | some s => PyVal.str s
  | Option.none => PyVal.int 0

/-! ## Table extractor (`parse_tables`) -/

/-- Python `line.startswith(p)`. -/
def pyStartsWith (s p : String) : Bool :=
  p.data.isPrefixOf s.data

/-- Python `s[n:]`. -/
def pyDropChars (s : String) (n : ℕ) : String :=
  String.mk (s.data.drop n)

/-- Python `s.split(sep)` for a single-character separator (helper on
characters, accumulating the current chunk in reverse). -/
def splitOnCharAux (sep : Char) : List Char → List Char → List (List Char)
  | [], cur => [cur.reverse]
  | c :: rest, cur =>
    if c = sep then cur.reverse :: splitOnCharAux sep rest []
    else splitOnCharAux sep rest (c :: cur)

/-- Python `s.split('\t')`. -/
def pySplitTab (s : String) : List String :=
  (splitOnCharAux '\t' s.data []).map String.mk

/-- The five table names tracked by `parse_tables` (the keys of its `tables`
dict literal). -/
def trackedTables : List String :=
  ["TASK", "TASKPRED", "PROJWBS", "CALENDAR", "PROJECT"]

/-- The accumulated tables, one list of records per tracked name. -/
structure Tables where
  TASK : List Record
  TASKPRED : List Record
  PROJWBS : List Record
  CALENDAR : List Record
  PROJECT : List Record
deriving DecidableEq

/-- The initial `tables` dict: five empty lists. -/
def Tables.empty : Tables :=
  ⟨[], [], [], [], []⟩

/-- `tables[current_table].append(row)` for a tracked name. -/
def Tables.append1 (t : Tables) (name : String) (r : Record) : Tables :=
  if name = "TASK" then { t with TASK := t.TASK ++ [r] }
  else if name = "TASKPRED" then { t with TASKPRED := t.TASKPRED ++ [r] }
  else if name = "PROJWBS" then { t with PROJWBS := t.PROJWBS ++ [r] }
  else if name = "CALENDAR" then { t with CALENDAR := t.CALENDAR ++ [r] }
  else if name = "PROJECT" then { t with PROJECT := t.PROJECT ++ [r] }
  else t

/-- `current_table in tables`: `None` is never a key. -/
def currentTracked : Option String → Bool
  | Option.none => false
  | some n => n ∈ trackedTables

/-- Truthiness of the `fields` variable: set, and not the empty list. -/
def fieldsTruthy : Option (List String) → Bool
  | Option.none => false
  | some l => !l.isEmpty

/-- The row construction of `parse_tables`: pad a short value list with one
empty string, then `dict(zip(fields, values))` (zip truncates to the shorter
list). -/
def mkRowData (fields values : List String) : Record :=
  let values2 := if values.length < fields.length then values ++ [""] else values
  pyDict (fields.zip values2)

/-- The loop state of `parse_tables`: the tables accumulated so far, the
current table name and the current field list. -/
structure ParseState where
  tables : Tables
  current_table : Option String
  fields : Option (List String)

/-- One iteration of the `for line in f` loop of `parse_tables`. -/
def parseLine (st : ParseState) (rawLine : String) : ParseState :=
  let line := pyStrip rawLine
  if line = "" then st
  else if pyStartsWith line "%T" then
    { st with current_table := some (pyStrip (pyDropChars line 3)), fields := Option.none }
  else if pyStartsWith line "%F" && currentTracked st.current_table then
    { st with fields := some (pySplitTab (pyDropChars line 3)) }
  else if pyStartsWith line "%R" && currentTracked st.current_table && fieldsTruthy st.fields then
    let row := mkRowData (st.fields.getD []) (pySplitTab (pyDropChars line 3))
    { st with tables := st.tables.append1 (st.current_table.getD "") row }
  else st

/-- `XerParser.parse_tables`, on the decoded lines of the input file. -/
def parse_tables (lines : List String) : Tables :=
  (lines.foldl parseLine ⟨Tables.empty, Option.none, Option.none⟩).tables

/-! ## Status description -/

/-- The `percent` local of `_get_status_description`:
`self._safe_float(task.get('phys_complete_pct', 0))`. -/
def taskPercent (task : Record) : ℚ :=
  _safe_float (recGetNum task "phys_complete_pct") 0

/-- The `status` local of `_get_status_description`:
`task.get('status_code', '')`. -/
def taskStatusCode (task : Record) : String :=
  recGetD task "status_code" ""

/-- `XerParser._get_status_description`. -/
def _get_status_description (task : Record) : String :=
  if taskPercent task = 100 then "This task is completed"
  else if 0 < taskPercent task then
    "This task is in progress, " ++ floatRepr (taskPercent task) ++ "% complete"
  else if taskStatusCode task = "TK_NotStart" then "This task has not started yet"
  else "Status unknown"

/-! ## Relationship graph builder (the `TASKPRED` loop of `process_for_rag`) -/

/-- One entry of a predecessor or successor list:
`{'task_id': ..., 'type': ..., 'lag': ...}`. -/
structure RelEntry where
  task_id : String
  type : String
  lag : ℚ
deriving DecidableEq

/-- The value stored per task in the `relationships` dict:
`{'predecessors': [...], 'successors': [...]}`. -/
structure RelLists where
  predecessors : List RelEntry
  successors : List RelEntry
deriving DecidableEq

/-- The freshly initialized entry `{'predecessors': [], 'successors': []}`. -/
def RelLists.empty : RelLists :=
  ⟨[], []⟩

/-- The relationships dict: task id → predecessor/successor lists. -/
abbrev RelMap := List (String × RelLists)

/-- Lazy initialization:
`if key not in relationships: relationships[key] = {'predecessors': [], 'successors': []}`. -/
def relInit (m : RelMap) (k : String) : RelMap :=
  if (alistGet? m k).isSome then m else m ++ [(k, RelLists.empty)]

/-- The predecessor-list lookup used below. -/
def predsAt (m : RelMap) (k : String) : List RelEntry :=
  ((alistGet? m k).getD RelLists.empty).predecessors

/-- The successor-list lookup used below. -/
def succsAt (m : RelMap) (k : String) : List RelEntry :=
  ((alistGet? m k).getD RelLists.empty).successors

/-- `relationships[task_id]['predecessors'].append({...})`: append one
predecessor entry onto `tid`'s lists. -/
def relAppendPred (m : RelMap) (tid pid ty : String) (lag : ℚ) : RelMap :=
  let cur := (alistGet? m tid).getD RelLists.empty
  alistUpdate m tid { cur with predecessors := cur.predecessors ++ [⟨pid, ty, lag⟩] }

/-- `relationships[pred_task_id]['successors'].append({...})`: append one
successor entry onto `pid`'s lists. -/
def relAppendSucc (m : RelMap) (tid pid ty : String) (lag : ℚ) : RelMap :=
  let cur := (alistGet? m pid).getD RelLists.empty
  alistUpdate m pid { cur with successors := cur.successors ++ [⟨tid, ty, lag⟩] }

/-- The body of the `TASKPRED` loop after the key reads: initialize both
endpoints, then append the predecessor entry and the successor entry. -/
def predRowStep (m : RelMap) (tid pid ty : String) (lag : ℚ) : RelMap :=
  relAppendSucc (relAppendPred (relInit (relInit m tid) pid) tid pid ty lag) tid pid ty lag

/-- One iteration of the `for rel in tables.get('TASKPRED', [])` loop of
`process_for_rag`: initialize both endpoints, append a predecessor entry on
the successor task and a successor entry on the predecessor task.  Accessing
a missing `task_id` or `pred_task_id` key raises `KeyError`. -/
def processPredRow (m : RelMap) (rel : Record) : Except String RelMap :=
  match alistGet? rel "task_id" with
  | Option.none => Except.error "KeyError: task_id"
  | some tid =>
    match alistGet? rel "pred_task_id" with
    | Option.none => Except.error "KeyError: pred_task_id"
    | some pid =>
      Except.ok (predRowStep m tid pid (recGetD rel "pred_type" "")
        (_safe_float (recGetNum rel "lag_hr_cnt") 0))

/-! ## Relationship enrichment (`_process_relationships`) -/

/-- One enriched predecessor/successor record as built by
`enrich_relationship`. -/
structure EnrichedRel where
  task_id : String
  task_name : String
  task_code : String
  relationship_type : String
  lag : ℚ
  lag_description : String
  date_start : String
  date_finish : String
deriving DecidableEq

/-- The task lookup: task id → raw task record. -/
abbrev TaskLookup := List (String × Record)

/-- The inner `enrich_relationship` closure of `_process_relationships`:
resolve the related task (empty record when absent) and attach names, the
relationship-type description, the lag description and the target dates. -/
def enrich_relationship (task_lookup : TaskLookup) (related_task_id : String)
    (rel_type : String) (lag : ℚ) : EnrichedRel :=
  let related_task := (alistGet? task_lookup related_task_id).getD []
  { task_id := related_task_id
    task_name := recGetD related_task "task_name" "Unknown Task"
    task_code := recGetD related_task "task_code" ""
    relationship_type := _describe_relationship_type rel_type
    lag := lag
    lag_description := _describe_lag (PyNum.float lag)
    date_start := recGetD related_task "target_start_date" ""
    date_finish := recGetD related_task "target_end_date" "" }

/-- The result of `_process_relationships`. -/
structure ProcessedRels where
  predecessors : List EnrichedRel
  successors : List EnrichedRel
  relationship_summary : String
deriving DecidableEq

/-- Python `sep.join(parts)`. -/
def pyJoin (sep : String) : List String → String
  | [] => ""
  | [a] => a
  | a :: rest => a ++ sep ++ pyJoin sep rest

/-- `XerParser._process_relationships` (its `task_id` parameter is unused in
the source as well). -/
def _process_relationships (_task_id : String) (relationships : RelLists)
    (task_lookup : TaskLookup) : ProcessedRels :=
  let preds := relationships.predecessors.map
    (fun p => enrich_relationship task_lookup p.task_id p.type p.lag)
  let succs := relationships.successors.map
    (fun s => enrich_relationship task_lookup s.task_id s.type s.lag)
  let summary_parts : List String :=
    (if !preds.isEmpty then
      ["This task must follow: " ++ pyJoin ", " (preds.map EnrichedRel.task_name)]
    else []) ++
    (if !succs.isEmpty then
      ["This task is required before: " ++ pyJoin ", " (succs.map EnrichedRel.task_name)]
    else [])
  let summary_parts := if summary_parts.isEmpty then ["This task has no dependencies"] else summary_parts
  { predecessors := preds
    successors := succs
    relationship_summary := pyJoin ". " summary_parts }

/-! ## Natural-language task description (`_generate_task_description`) -/

/-- `XerParser._generate_task_description`. -/
def _generate_task_description (task : Record) : String :=
  let status := _get_status_description task
  let duration := _safe_float (recGetNum task "target_drtn_hr_cnt") 0
  let description := "Task \x27" ++ recGetD task "task_name" "" ++ "\x27 (ID: " ++
    recGetD task "task_code" "" ++ ") " ++
    "is planned to take " ++ floatRepr duration ++ " hours. " ++ status ++ ". "
  let description :=
    match alistGet? task "target_start_date" with
    | some d => if d ≠ "" then description ++ "It is scheduled to start on " ++ d ++ ". " else description
    | Option.none => description
  let description :=
    if _safe_float (recGetNum task "total_float_hr_cnt") 0 ≤ 0 then
      description ++ "This is a critical task with no float. "
    else description
  pyStrip description

/-! ## Enhanced task records -/

/-- One element of `enhanced_tasks`, with the nested Python dict flattened
into named fields (`start_target` is `dates.start.target`, and so on). -/
structure EnhancedTask where
  task_id : String
  name : String
  code : String
  status_code : String
  percent_complete : ℚ
  status_description : String
  start_target : String
  start_actual : String
  start_early : String
  start_late : String
  finish_target : String
  finish_actual : String
  finish_early : String
  finish_late : String
  duration_target : ℚ
  duration_remaining : ℚ
  float_total : ℚ
  float_free : ℚ
  relationships : ProcessedRels
  natural_language_description : String
deriving DecidableEq

/-- Build one element of `enhanced_tasks` from a raw task record
(`task['task_id']` raises `KeyError` when absent). -/
def buildEnhancedTask (relationships : RelMap) (task_lookup : TaskLookup)
    (task : Record) : Except String EnhancedTask :=
  match alistGet? task "task_id" with
  | Option.none => Except.error "KeyError: task_id"
  | some tid =>
    Except.ok
      { task_id := tid
        name := recGetD task "task_name" ""
        code := recGetD task "task_code" ""
        status_code := recGetD task "status_code" ""
        percent_complete := _safe_float (recGetNum task "phys_complete_pct") 0
        status_description := _get_status_description task
        start_target := recGetD task "target_start_date" ""
        start_actual := recGetD task "act_start_date" ""
        start_early := recGetD task "early_start_date" ""
        start_late := recGetD task "late_start_date" ""
        finish_target := recGetD task "target_end_date" ""
        finish_actual := recGetD task "act_end_date" ""
        finish_early := recGetD task "early_end_date" ""
        finish_late := recGetD task "late_end_date" ""
        duration_target := _safe_float (recGetNum task "target_drtn_hr_cnt") 0
        duration_remaining := _safe_float (recGetNum task "remain_drtn_hr_cnt") 0
        float_total := _safe_float (recGetNum task "total_float_hr_cnt") 0
        float_free := _safe_float (recGetNum task "free_float_hr_cnt") 0
        relationships := _process_relationships tid
          ((alistGet? relationships tid).getD RelLists.empty) task_lookup
        natural_language_description := _generate_task_description task }

/-! ## Schedule metrics (`_calculate_schedule_metrics`) -/

/-- Round half to even at integer precision, the rounding of Python `round`
on the exact rational value. -/
def roundHalfEven (x : ℚ) : ℤ :=
  let f := Rat.floor x
  let r := x - (f : ℚ)
  if r < 1 / 2 then f
  else if 1 / 2 < r then f + 1
  else if f % 2 = 0 then f else f + 1

/-- Modelled from the Python standard library: `round(x, 2)` on the exact
rational value of `x`. -/
def pyRound2 (x : ℚ) : ℚ :=
  ((roundHalfEven (x * 100) : ℤ) : ℚ) / 100

/-- The metrics dict returned by `_calculate_schedule_metrics`. -/
structure ScheduleMetrics where
  total_tasks : ℤ
  completed_tasks : ℤ
  in_progress_tasks : ℤ
  not_started_tasks : ℤ
  percent_complete : ℚ
deriving DecidableEq

/-- `XerParser._calculate_schedule_metrics`. -/
def _calculate_schedule_metrics (tasks : List EnhancedTask) : ScheduleMetrics :=
  let total_tasks : ℤ := tasks.length
  let completed_tasks : ℤ := tasks.countP (fun t => t.percent_complete = 100)
  let in_progress : ℤ := tasks.countP (fun t => 0 < t.percent_complete && t.percent_complete < 100)
  { total_tasks := total_tasks
    completed_tasks := completed_tasks
    in_progress_tasks := in_progress
    not_started_tasks := total_tasks - completed_tasks - in_progress
    percent_complete :=
      pyRound2 (if 0 < total_tasks then (completed_tasks : ℚ) / (total_tasks : ℚ) * 100 else 0) }

/-! ## Critical path identifier (`_identify_critical_path`) -/

/-- Python `x or ''` on a string. -/
def pyOrEmpty (s : String) : String :=
  if s ≠ "" then s else ""

/-- The sort key `x['dates']['start']['target'] or ''`. -/
def criticalSortKey (t : EnhancedTask) : String :=
  pyOrEmpty t.start_target

/-- `XerParser._identify_critical_path`: filter to non-positive total float,
then `sorted` (a stable sort) by target start date. -/
def _identify_critical_path (tasks : List EnhancedTask) : List EnhancedTask :=
  (tasks.filter (fun t => t.float_total ≤ 0)).mergeSort
    (fun a b => criticalSortKey a ≤ criticalSortKey b)

/-! ## The full conversion (`process_for_rag`) -/

/-- The `project_info` block of the output. -/
structure ProjectInfo where
  name : String
  id : String
  start_date : String
  finish_date : String
  data_date : String
deriving DecidableEq

/-- The value returned by `process_for_rag`. -/
structure RagOutput where
  project_info : ProjectInfo
  tasks : List EnhancedTask
  schedule_metrics : ScheduleMetrics
  critical_path_summary : List EnhancedTask
deriving DecidableEq

/-- The task lookup comprehension
`{task['task_id']: task for task in tables.get('TASK', [])}`. -/
def buildTaskLookup (tasks : List Record) : Except String TaskLookup :=
  tasks.foldlM
    (fun m t =>
      match alistGet? t "task_id" with
      | some tid => Except.ok (alistUpdate m tid t)
      | Option.none => Except.error "KeyError: task_id")
    []

/-- `XerParser.process_for_rag`, on the decoded lines of the input file.
`tables.get('PROJECT', [{}])[0]` raises `IndexError` when the parsed
`PROJECT` table is empty, because `parse_tables` always initializes the
`PROJECT` key, so the `[{}]` default is never taken. -/
def process_for_rag (lines : List String) : Except String RagOutput := do
  let tables := parse_tables lines
  let task_lookup ← buildTaskLookup tables.TASK
  let relationships ← tables.TASKPRED.foldlM processPredRow []
  let enhanced_tasks ← tables.TASK.mapM (buildEnhancedTask relationships task_lookup)
  match tables.PROJECT with
  | [] => Except.error "IndexError: list index out of range"
  | project_data :: _ =>
    Except.ok
      { project_info :=
          { name := recGetD project_data "proj_short_name" "Unknown Project"
            id := recGetD project_data "proj_id" ""
            start_date := recGetD project_data "start_date" ""
            finish_date := recGetD project_data "finish_date" ""
            data_date := recGetD project_data "last_recalc_date" "" }
        tasks := enhanced_tasks
        schedule_metrics := _calculate_schedule_metrics enhanced_tasks
        critical_path_summary := _identify_critical_path enhanced_tasks }

/-! ## Claim C10: `_safe_float` on falsy values -/

/-- C10: for every falsy non-string input value (the integer 0, the float
0.0, `None`, the empty string) and every default `d`, `_safe_float` returns
`d`, not the parsed value; in particular `_safe_float(0.0, 5.0) = 5.0`, so a
numeric zero passed with a non-zero default is treated the same as an absent
value. -/
theorem C10_safe_float_falsy_returns_default :
    ∀ d : ℚ,
      _safe_float (PyVal.int 0) d = d ∧
      _safe_float (PyVal.float 0) d = d ∧
      _safe_float PyVal.none d = d ∧
      _safe_float (PyVal.str "") d = d ∧
      _safe_float (PyVal.float 0) 5 = 5 :=
  fun d => ⟨rfl, rfl, rfl, rfl, rfl⟩

/-! ## Claim C5: the relationship-type description table -/

/-- C5 counterexample: the code of the fixed enumeration is `PR_FS`, not
`FS`; the input `FS` falls into the pass-through default and is returned
unchanged rather than being mapped to the Finish-to-Start prose. -/
theorem C5_counterexample_FS_passes_through :
    _describe_relationship_type "FS" = "FS" ∧
    _describe_relationship_type "FS" ≠ "Finish-to-Start (must finish before successor can start)" :=
  ⟨rfl, by decide⟩

/-- C5 (amended): the relationship-type description function maps the code
`PR_FS` to "Finish-to-Start (must finish before successor can start)" (and
analogously `PR_SS`, `PR_FF`, `PR_SF` to their fixed prose), and returns
every code outside this fixed enumeration unchanged as its own
description. -/
theorem C5_relationship_type_description :
    _describe_relationship_type "PR_FS" = "Finish-to-Start (must finish before successor can start)" ∧
    _describe_relationship_type "PR_SS" = "Start-to-Start (must start before successor can start)" ∧
    _describe_relationship_type "PR_FF" = "Finish-to-Finish (must finish before successor can finish)" ∧
    _describe_relationship_type "PR_SF" = "Start-to-Finish (must start before successor can finish)" ∧
    ∀ code : String, code ∉ (["PR_FS", "PR_SS", "PR_FF", "PR_SF"] : List String) →
      _describe_relationship_type code = code := by
  refine ⟨rfl, rfl, rfl, rfl, fun code h => ?_⟩
  simp only [List.mem_cons, List.not_mem_nil, or_false, not_or] at h
  obtain ⟨h1, h2, h3, h4⟩ := h
  simp [_describe_relationship_type, h1, h2, h3, h4]

/-- C5 witness: an unknown code passes through unchanged. -/
theorem C5_relationship_type_description_witness :
    _describe_relationship_type "XX" = "XX" :=
  C5_relationship_type_description.2.2.2.2 "XX" (by decide)

/-! ## Claim C8: the lag description -/

/-- C8: for every lag value, the lag description is "No lag time" when
`lag == 0`, "With \x7blag\x7d hour(s) lag time after" when `lag > 0`, and
"With \x7babs(lag)\x7d hour(s) lead time before" when `lag < 0`; in
particular input `4` yields "With 4 hour(s) lag time after" and input `-2`
yields "With 2 hour(s) lead time before". -/
theorem C8_lag_description :
    (∀ lag : PyNum, lag.val = 0 → _describe_lag lag = "No lag time") ∧
    (∀ lag : PyNum, 0 < lag.val →
      _describe_lag lag = "With " ++ lag.repr ++ " hour(s) lag time after") ∧
    (∀ lag : PyNum, lag.val < 0 →
      _describe_lag lag = "With " ++ lag.abs.repr ++ " hour(s) lead time before") ∧
    _describe_lag (PyNum.int 4) = "With 4 hour(s) lag time after" ∧
    _describe_lag (PyNum.int (-2)) = "With 2 hour(s) lead time before" := by
  refine ⟨fun lag h => ?_, fun lag h => ?_, fun lag h => ?_, by decide, by decide⟩
  · rw [_describe_lag, if_pos h]
  · rw [_describe_lag, if_neg (ne_of_gt h), if_pos h]
  · rw [_describe_lag, if_neg (ne_of_lt h), if_neg (not_lt.mpr (le_of_lt h))]

/-- C8 witness: the three guarded cases applied at concrete inputs. -/
theorem C8_lag_description_witness :
    _describe_lag (PyNum.float 0) = "No lag time" ∧
    _describe_lag (PyNum.int 7) = "With " ++ (PyNum.int 7).repr ++ " hour(s) lag time after" ∧
    _describe_lag (PyNum.int (-3)) = "With " ++ (PyNum.int (-3)).abs.repr ++ " hour(s) lead time before" :=
  ⟨C8_lag_description.1 (PyNum.float 0) rfl,
   C8_lag_description.2.1 (PyNum.int 7) (by decide),
   C8_lag_description.2.2.1 (PyNum.int (-3)) (by decide)⟩

/-! ## Claim C2: the status description -/

/-- C2 counterexample: a task whose completion percentage is 150 (outside
both enumerated percent ranges) and whose status code is not the not-started
code is described as in progress by the code, not as "Status unknown" as the
claim requires for every other combination. -/
theorem C2_counterexample_percent_150 :
    _get_status_description [("status_code", "TK_Active"), ("phys_complete_pct", "150")] =
      "This task is in progress, 150.0% complete" ∧
    _get_status_description [("status_code", "TK_Active"), ("phys_complete_pct", "150")] ≠
      "Status unknown" := by
  exact ⟨by decide, by decide⟩

/-- C2 (amended): for every task record, the status description is exactly:
"This task is completed" when `percent_complete == 100`; "This task is in
progress, \x7bpercent\x7d% complete" when `percent_complete > 0` and
`percent_complete ≠ 100` (not only for percent below 100); "This task has
not started yet" when `percent_complete ≤ 0` and the status code equals the
fixed not-started code; and "Status unknown" when `percent_complete ≤ 0` and
the status code differs from it. -/
theorem C2_status_description :
    ∀ task : Record,
      (taskPercent task = 100 →
        _get_status_description task = "This task is completed") ∧
      (0 < taskPercent task → taskPercent task ≠ 100 →
        _get_status_description task =
          "This task is in progress, " ++ floatRepr (taskPercent task) ++ "% complete") ∧
      (taskPercent task ≤ 0 → taskStatusCode task = "TK_NotStart" →
        _get_status_description task = "This task has not started yet") ∧
      (taskPercent task ≤ 0 → taskStatusCode task ≠ "TK_NotStart" →
        _get_status_description task = "Status unknown") := by
  intro task
  refine ⟨fun h => ?_, fun h1 h2 => ?_, fun h1 h2 => ?_, fun h1 h2 => ?_⟩
  · rw [_get_status_description, if_pos h]
  · rw [_get_status_description, if_neg h2, if_pos h1]
  · have hne : taskPercent task ≠ 100 := by intro e; rw [e] at h1; norm_num at h1
    rw [_get_status_description, if_neg hne, if_neg (not_lt.mpr h1), if_pos h2]
  · have hne : taskPercent task ≠ 100 := by intro e; rw [e] at h1; norm_num at h1
    rw [_get_status_description, if_neg hne, if_neg (not_lt.mpr h1), if_neg h2]

/-- C2 witness: the four status cases at concrete task records. -/
theorem C2_status_description_witness :
    _get_status_description [("phys_complete_pct", "100")] = "This task is completed" ∧
    _get_status_description [("phys_complete_pct", "50")] = "This task is in progress, 50.0% complete" ∧
    _get_status_description [("status_code", "TK_NotStart")] = "This task has not started yet" ∧
    _get_status_description [("status_code", "TK_Active")] = "Status unknown" := by
  refine ⟨(C2_status_description _).1 (by decide), ?_,
    (C2_status_description _).2.2.1 (by decide) (by decide),
    (C2_status_description _).2.2.2 (by decide) (by decide)⟩
  exact ((C2_status_description [("phys_complete_pct", "50")]).2.1 (by decide) (by decide)).trans
    (by decide)

/-! ## Association-list lemmas for the CPython dict model -/

theorem alistGet?_update_self {α : Type} (m : List (String × α)) (k : String) (v : α) :
    alistGet? (alistUpdate m k v) k = some v := by
  rw [alistUpdate]
  split
  · rename_i hany
    induction m with
    | nil => simp at hany
    | cons p rest ih =>
      by_cases hp : p.1 = k
      · simp [alistGet?, hp]
      · simp only [List.any_cons, Bool.or_eq_true, decide_eq_true_eq] at hany
        rcases hany with h | h
        · exact absurd h hp
        · simp only [List.map_cons, if_neg hp]
          rw [alistGet?, List.find?_cons_of_neg _ (by simpa using hp)]
          exact ih h
  · rename_i hany
    have hnone : m.find? (fun p => p.1 = k) = Option.none := by
      rw [List.find?_eq_none]
      intro p hp
      simp only [decide_eq_true_eq]
      intro he
      exact hany (List.any_eq_true.mpr ⟨p, hp, by simpa using he⟩)
    rw [alistGet?, List.find?_append, hnone]
    simp

theorem find?_keyUpdate_map_ne {α : Type} (k k' : String) (v : α) (h : k' ≠ k) :
    ∀ m : List (String × α),
      List.find? (fun p => p.1 = k') (m.map (fun p => if p.1 = k then (k, v) else p)) =
        List.find? (fun p => p.1 = k') m := by
  intro m
  induction m with
  | nil => simp
  | cons p rest ih =>
    by_cases hp : p.1 = k
    · rw [List.map_cons, if_pos hp,
        List.find?_cons_of_neg _ (by simp; exact fun e => h e.symm),
        List.find?_cons_of_neg _ (by simp [hp]; exact fun e => h e.symm)]
      exact ih
    · rw [List.map_cons, if_neg hp]
      by_cases hp' : p.1 = k'
      · rw [List.find?_cons_of_pos _ (by simpa using hp'),
          List.find?_cons_of_pos _ (by simpa using hp')]
      · rw [List.find?_cons_of_neg _ (by simpa using hp'),
          List.find?_cons_of_neg _ (by simpa using hp')]
        exact ih

theorem alistGet?_update_ne {α : Type} (m : List (String × α)) (k : String) (v : α)
    (k' : String) (h : k' ≠ k) :
    alistGet? (alistUpdate m k v) k' = alistGet? m k' := by
  rw [alistUpdate]
  split
  · rw [alistGet?, alistGet?, find?_keyUpdate_map_ne k k' v h]
  · have hd : List.find? (fun p => p.1 = k') [(k, v)] = Option.none := by
      rw [List.find?_cons_of_neg _ (by simp; exact fun e => h e.symm), List.find?_nil]
    rw [alistGet?, alistGet?, List.find?_append, hd]
    cases m.find? (fun p => decide (p.1 = k')) <;> simp

theorem pyDict_append {α : Type} (ps : List (String × α)) (p : String × α) :
    pyDict (ps ++ [p]) = alistUpdate (pyDict ps) p.1 p.2 := by
  simp [pyDict, List.foldl_append]

theorem alistUpdate_of_not_mem {α : Type} (m : List (String × α)) (k : String) (v : α)
    (h : m.any (fun p => p.1 = k) = false) :
    alistUpdate m k v = m ++ [(k, v)] := by
  rw [alistUpdate, if_neg (by simp [h])]

theorem pyDict_of_nodup_keys {α : Type} :
    ∀ (ps : List (String × α)) (d : List (String × α)),
      (ps.map Prod.fst).Nodup →
      (∀ p ∈ ps, d.any (fun q => q.1 = p.1) = false) →
      ps.foldl (fun d p => alistUpdate d p.1 p.2) d = d ++ ps := by
  intro ps
  induction ps with
  | nil => intro d _ _; simp
  | cons p rest ih =>
    intro d hnd hdisj
    rw [List.foldl_cons, alistUpdate_of_not_mem d p.1 p.2 (hdisj p (List.mem_cons_self p rest))]
    rw [List.map_cons, List.nodup_cons] at hnd
    rw [ih (d ++ [p]) hnd.2 ?_]
    · simp
    · intro q hq
      rw [List.any_append]
      have h1 : d.any (fun r => r.1 = q.1) = false := hdisj q (List.mem_cons_of_mem p hq)
      have h2 : [p].any (fun r => r.1 = q.1) = false := by
        simp only [List.any_cons, List.any_nil, Bool.or_false, decide_eq_false_iff_not]
        intro he
        exact hnd.1 (he ▸ List.mem_map_of_mem Prod.fst hq)
      rw [h1, h2]
      rfl

theorem map_fst_zip_sublist {α β : Type} :
    ∀ (f : List α) (w : List β), ((f.zip w).map Prod.fst).Sublist f := by
  intro f
  induction f with
  | nil => intro w; simp
  | cons a f ih =>
    intro w
    cases w with
    | nil => simp
    | cons b w => simpa using List.Sublist.cons₂ a (ih w)

/-! ## Claim C3: short rows in the table extractor -/

/-- C3 counterexample: a row line with two fewer values than fields (claim:
the record then has only as many keys as values supplied) in fact yields a
record with one more key than values supplied, because one empty string is
always appended before zipping: three fields against one value give two
keys, not one. -/
theorem C3_counterexample_two_short :
    mkRowData ["a", "b", "c"] ["x"] = [("a", "x"), ("b", "")] ∧
    (mkRowData ["a", "b", "c"] ["x"]).length ≠ (["x"] : List String).length :=
  ⟨by decide, by decide⟩

/-- C3 (amended): for every row line of a tracked table whose value count is
exactly one less than the current field count, the resulting record has the
final field set to the empty string; for every short row line (two or more
fewer values than fields, with distinct field names), the resulting record
is the field list zipped against the values padded with a single empty
string: it has one more key than values supplied — the extra final key
mapped to the empty string — and the remaining trailing fields are silently
dropped. -/
theorem C3_short_row_padding (fields values : List String) :
    (values.length + 1 = fields.length →
      ∀ lf, fields.getLast? = some lf →
        alistGet? (mkRowData fields values) lf = some "") ∧
    (values.length < fields.length → fields.Nodup →
      mkRowData fields values = fields.zip (values ++ [""]) ∧
      (mkRowData fields values).length = values.length + 1) := by
  constructor
  · intro hlen lf hlf
    have hne : fields ≠ [] := by
      intro he
      rw [he] at hlen
      simp at hlen
    have hlast : fields.getLast hne = lf := by
      rwa [List.getLast?_eq_getLast fields hne, Option.some_inj] at hlf
    have hsplit : fields.dropLast ++ [lf] = fields := hlast ▸ List.dropLast_append_getLast hne
    have hdl : fields.dropLast.length = values.length := by
      rw [List.length_dropLast, ← hlen]
      simp
    rw [mkRowData, if_pos (by omega)]
    rw [← hsplit, List.zip_append hdl]
    simp only [List.zip_cons_cons, List.zip_nil_left]
    rw [pyDict_append]
    exact alistGet?_update_self _ lf ""
  · intro hlen hnd
    have hkeys : ((fields.zip (values ++ [""])).map Prod.fst).Nodup :=
      hnd.sublist (map_fst_zip_sublist fields (values ++ [""]))
    have heq : mkRowData fields values = fields.zip (values ++ [""]) := by
      rw [mkRowData, if_pos hlen, pyDict]
      rw [pyDict_of_nodup_keys _ [] hkeys (by simp)]
      simp
    refine ⟨heq, ?_⟩
    rw [heq, List.length_zip, List.length_append]
    simp only [List.length_cons, List.length_nil]
    omega

/-- C3 witness: a one-short row leaves the last field empty; a two-short row
keeps two of its three fields. -/
theorem C3_short_row_padding_witness :
    alistGet? (mkRowData ["a", "b"] ["x"]) "b" = some "" ∧
    mkRowData ["a", "b", "c"] ["x"] = (["a", "b", "c"].zip (["x"] ++ [""])) ∧
    (mkRowData ["a", "b", "c"] ["x"]).length = ("x" :: []).length + 1 :=
  ⟨(C3_short_row_padding ["a", "b"] ["x"]).1 (by decide) "b" (by decide),
   ((C3_short_row_padding ["a", "b", "c"] ["x"]).2 (by decide) (by decide)).1,
   ((C3_short_row_padding ["a", "b", "c"] ["x"]).2 (by decide) (by decide)).2⟩

/-! ## Lemmas about the relationship graph operations -/

theorem alistGet?_append_single_self {α : Type} (m : List (String × α)) (k : String) (v : α)
    (h : alistGet? m k = Option.none) :
    alistGet? (m ++ [(k, v)]) k = some v := by
  have hfind : m.find? (fun p => p.1 = k) = Option.none := by
    rw [alistGet?] at h
    cases hf : m.find? (fun p => decide (p.1 = k)) with
    | none => rfl
    | some p => rw [hf] at h; simp at h
  rw [alistGet?, List.find?_append, hfind]
  simp

theorem alistGet?_append_single_ne {α : Type} (m : List (String × α)) (k : String) (v : α)
    (k' : String) (h : k' ≠ k) :
    alistGet? (m ++ [(k, v)]) k' = alistGet? m k' := by
  have hd : List.find? (fun p => p.1 = k') [(k, v)] = Option.none := by
    rw [List.find?_cons_of_neg _ (by simp; exact fun e => h e.symm), List.find?_nil]
  rw [alistGet?, alistGet?, List.find?_append, hd]
  cases m.find? (fun p => decide (p.1 = k')) <;> simp

theorem relInit_get_ne (m : RelMap) (k0 k : String) (h : k ≠ k0) :
    alistGet? (relInit m k0) k = alistGet? m k := by
  rw [relInit]
  split
  · rfl
  · rename_i hs
    exact alistGet?_append_single_ne m k0 RelLists.empty k h

theorem relInit_predsAt (m : RelMap) (k0 k : String) :
    predsAt (relInit m k0) k = predsAt m k := by
  by_cases hk : k = k0
  · subst hk
    rw [relInit]
    split
    · rfl
    · rename_i hs
      have hnone : alistGet? m k = Option.none := by
        cases hg : alistGet? m k with
        | none => rfl
        | some x => rw [hg] at hs; simp at hs
      rw [predsAt, predsAt, alistGet?_append_single_self m k RelLists.empty hnone, hnone]
      rfl
  · rw [predsAt, predsAt, relInit_get_ne m k0 k hk]

theorem relInit_succsAt (m : RelMap) (k0 k : String) :
    succsAt (relInit m k0) k = succsAt m k := by
  by_cases hk : k = k0
  · subst hk
    rw [relInit]
    split
    · rfl
    · rename_i hs
      have hnone : alistGet? m k = Option.none := by
        cases hg : alistGet? m k with
        | none => rfl
        | some x => rw [hg] at hs; simp at hs
      rw [succsAt, succsAt, alistGet?_append_single_self m k RelLists.empty hnone, hnone]
      rfl
  · rw [succsAt, succsAt, relInit_get_ne m k0 k hk]

theorem relAppendPred_predsAt_self (m : RelMap) (tid pid ty : String) (lag : ℚ) :
    predsAt (relAppendPred m tid pid ty lag) tid = predsAt m tid ++ [⟨pid, ty, lag⟩] := by
  rw [relAppendPred, predsAt, alistGet?_update_self]
  rfl

theorem relAppendPred_succsAt (m : RelMap) (tid pid ty : String) (lag : ℚ) (k : String) :
    succsAt (relAppendPred m tid pid ty lag) k = succsAt m k := by
  by_cases hk : k = tid
  · subst hk
    rw [relAppendPred, succsAt, alistGet?_update_self]
    rfl
  · rw [relAppendPred, succsAt, succsAt, alistGet?_update_ne _ _ _ _ hk]

theorem relAppendPred_get_ne (m : RelMap) (tid pid ty : String) (lag : ℚ) (k : String)
    (h : k ≠ tid) :
    alistGet? (relAppendPred m tid pid ty lag) k = alistGet? m k := by
  rw [relAppendPred, alistGet?_update_ne _ _ _ _ h]

theorem relAppendSucc_succsAt_self (m : RelMap) (tid pid ty : String) (lag : ℚ) :
    succsAt (relAppendSucc m tid pid ty lag) pid = succsAt m pid ++ [⟨tid, ty, lag⟩] := by
  rw [relAppendSucc, succsAt, alistGet?_update_self]
  rfl

theorem relAppendSucc_predsAt (m : RelMap) (tid pid ty : String) (lag : ℚ) (k : String) :
    predsAt (relAppendSucc m tid pid ty lag) k = predsAt m k := by
  by_cases hk : k = pid
  · subst hk
    rw [relAppendSucc, predsAt, alistGet?_update_self]
    rfl
  · rw [relAppendSucc, predsAt, predsAt, alistGet?_update_ne _ _ _ _ hk]

theorem relAppendSucc_get_ne (m : RelMap) (tid pid ty : String) (lag : ℚ) (k : String)
    (h : k ≠ pid) :
    alistGet? (relAppendSucc m tid pid ty lag) k = alistGet? m k := by
  rw [relAppendSucc, alistGet?_update_ne _ _ _ _ h]

/-! ## Claim C4: the relationship graph builder -/

/-- C4 counterexample: a self-referential predecessor row
(`task_id == pred_task_id`) places its predecessor entry and its successor
entry on one and the same task, not on two different tasks as the claim
states: processing the row `A → A` yields a graph whose only key is `A`,
holding both entries. -/
theorem C4_counterexample_self_loop :
    processPredRow []
        [("task_id", "A"), ("pred_task_id", "A"), ("pred_type", "PR_FS"), ("lag_hr_cnt", "0")] =
      Except.ok [("A", ⟨[⟨"A", "PR_FS", 0⟩], [⟨"A", "PR_FS", 0⟩]⟩)] := by
  have h : predRowStep [] "A" "A" "PR_FS" 0 =
      [("A", ⟨[⟨"A", "PR_FS", 0⟩], [⟨"A", "PR_FS", 0⟩]⟩)] := by decide
  rw [processPredRow]
  rw [show alistGet? [("task_id", "A"), ("pred_task_id", "A"), ("pred_type", "PR_FS"),
      ("lag_hr_cnt", "0")] "task_id" = some "A" from by decide]
  rw [show alistGet? [("task_id", "A"), ("pred_task_id", "A"), ("pred_type", "PR_FS"),
      ("lag_hr_cnt", "0")] "pred_task_id" = some "A" from by decide]
  rw [show recGetD [("task_id", "A"), ("pred_task_id", "A"), ("pred_type", "PR_FS"),
      ("lag_hr_cnt", "0")] "pred_type" "" = "PR_FS" from by decide]
  rw [show _safe_float (recGetNum [("task_id", "A"), ("pred_task_id", "A"),
      ("pred_type", "PR_FS"), ("lag_hr_cnt", "0")] "lag_hr_cnt") 0 = 0 from by decide]
  exact congrArg Except.ok h

/-- C4 (amended): for every row of the predecessor table carrying a
`task_id` and a `pred_task_id`, the graph builder adds exactly one
predecessor entry onto the successor task's predecessor list and exactly one
successor entry onto the predecessor task's successor list, with identical
relationship-type and lag values in the two entries, and leaves every other
task's lists unchanged; the two entries sit on two different tasks except
when the row is self-referential (`task_id == pred_task_id`), in which case
both sit on that one task. -/
theorem C4_graph_builder (m : RelMap) (rel : Record) (tid pid : String)
    (h1 : alistGet? rel "task_id" = some tid)
    (h2 : alistGet? rel "pred_task_id" = some pid) :
    processPredRow m rel =
      Except.ok (predRowStep m tid pid (recGetD rel "pred_type" "")
        (_safe_float (recGetNum rel "lag_hr_cnt") 0)) ∧
    (∀ ty : String, ∀ lag : ℚ,
      predsAt (predRowStep m tid pid ty lag) tid = predsAt m tid ++ [⟨pid, ty, lag⟩] ∧
      succsAt (predRowStep m tid pid ty lag) pid = succsAt m pid ++ [⟨tid, ty, lag⟩] ∧
      ∀ k, k ≠ tid → k ≠ pid → alistGet? (predRowStep m tid pid ty lag) k = alistGet? m k) := by
  constructor
  · rw [processPredRow, h1, h2]
  · intro ty lag
    refine ⟨?_, ?_, ?_⟩
    · rw [predRowStep, relAppendSucc_predsAt, relAppendPred_predsAt_self,
        relInit_predsAt, relInit_predsAt]
    · rw [predRowStep, relAppendSucc_succsAt_self, relAppendPred_succsAt,
        relInit_succsAt, relInit_succsAt]
    · intro k hkt hkp
      rw [predRowStep, relAppendSucc_get_ne _ _ _ _ _ _ hkp, relAppendPred_get_ne _ _ _ _ _ _ hkt,
        relInit_get_ne _ _ _ hkp, relInit_get_ne _ _ _ hkt]

/-- C4 witness: one ordinary row `B` after `A`, processed on the empty
graph. -/
theorem C4_graph_builder_witness :
    processPredRow [] [("task_id", "B"), ("pred_task_id", "A")] =
      Except.ok (predRowStep [] "B" "A" "" 0) ∧
    predsAt (predRowStep [] "B" "A" "" 0) "B" = predsAt ([] : RelMap) "B" ++ [⟨"A", "", 0⟩] ∧
    succsAt (predRowStep [] "B" "A" "" 0) "A" = succsAt ([] : RelMap) "A" ++ [⟨"B", "", 0⟩] ∧
    alistGet? (predRowStep [] "B" "A" "" 0) "C" = alistGet? ([] : RelMap) "C" := by
  have h := C4_graph_builder [] [("task_id", "B"), ("pred_task_id", "A")] "B" "A"
    (by decide) (by decide)
  exact ⟨h.1, (h.2 "" 0).1, (h.2 "" 0).2.1, (h.2 "" 0).2.2 "C" (by decide) (by decide)⟩

/-! ## Claim C1: behavior on an empty project table -/

/-- C1: the claim states that `process_for_rag` never aborts once the input
has been read and decoded, in particular not when the project table contains
zero records.  The code violates this: `parse_tables` always initializes the
`PROJECT` key, so `tables.get('PROJECT', [{}])` returns the empty list for an
input with no project rows and the subscript `[0]` raises `IndexError`.  The
empty document is such an input: its `PROJECT` table is empty and the
conversion aborts. -/
theorem C1_empty_project_table_aborts :
    (parse_tables []).PROJECT = [] ∧
    process_for_rag [] = Except.error "IndexError: list index out of range" :=
  ⟨rfl, rfl⟩

/-! ## Claim C9: the relationship summary -/

/-- C9: for every enriched task, the relationship summary is: the sentence
"This task must follow: " followed by the comma-separated predecessor names
when predecessors exist, and the sentence "This task is required before: "
followed by the comma-separated successor names when successors exist, the
two joined by ". " when both exist; when the task has neither predecessors
nor successors the summary is exactly "This task has no dependencies". -/
theorem C9_relationship_summary (task_id : String) (rels : RelLists) (task_lookup : TaskLookup) :
    (rels.predecessors ≠ [] → rels.successors ≠ [] →
      (_process_relationships task_id rels task_lookup).relationship_summary =
        "This task must follow: " ++
          pyJoin ", " ((_process_relationships task_id rels task_lookup).predecessors.map
            EnrichedRel.task_name) ++
        ". " ++
        ("This task is required before: " ++
          pyJoin ", " ((_process_relationships task_id rels task_lookup).successors.map
            EnrichedRel.task_name))) ∧
    (rels.predecessors ≠ [] → rels.successors = [] →
      (_process_relationships task_id rels task_lookup).relationship_summary =
        "This task must follow: " ++
          pyJoin ", " ((_process_relationships task_id rels task_lookup).predecessors.map
            EnrichedRel.task_name)) ∧
    (rels.predecessors = [] → rels.successors ≠ [] →
      (_process_relationships task_id rels task_lookup).relationship_summary =
        "This task is required before: " ++
          pyJoin ", " ((_process_relationships task_id rels task_lookup).successors.map
            EnrichedRel.task_name)) ∧
    (rels.predecessors = [] → rels.successors = [] →
      (_process_relationships task_id rels task_lookup).relationship_summary =
        "This task has no dependencies") := by
  refine ⟨fun h1 h2 => ?_, fun h1 h2 => ?_, fun h1 h2 => ?_, fun h1 h2 => ?_⟩
  · obtain ⟨a, la, hp⟩ := List.exists_cons_of_ne_nil h1
    obtain ⟨b, lb, hs⟩ := List.exists_cons_of_ne_nil h2
    simp [_process_relationships, hp, hs, pyJoin, String.append_assoc]
  · obtain ⟨a, la, hp⟩ := List.exists_cons_of_ne_nil h1
    simp [_process_relationships, hp, h2, pyJoin]
  · obtain ⟨b, lb, hs⟩ := List.exists_cons_of_ne_nil h2
    simp [_process_relationships, h1, hs, pyJoin]
  · simp [_process_relationships, h1, h2, pyJoin]

/-- C9 witness: the four summary shapes at concrete relationship lists. -/
theorem C9_relationship_summary_witness :
    (_process_relationships "T" ⟨[⟨"A", "PR_FS", 0⟩], [⟨"B", "PR_SS", 0⟩]⟩ []).relationship_summary =
      "This task must follow: Unknown Task. This task is required before: Unknown Task" ∧
    (_process_relationships "T" ⟨[⟨"A", "PR_FS", 0⟩], []⟩ []).relationship_summary =
      "This task must follow: Unknown Task" ∧
    (_process_relationships "T" ⟨[], [⟨"B", "PR_SS", 0⟩]⟩ []).relationship_summary =
      "This task is required before: Unknown Task" ∧
    (_process_relationships "T" ⟨[], []⟩ []).relationship_summary =
      "This task has no dependencies" := by
  refine ⟨?_, ?_, ?_,
    (C9_relationship_summary "T" ⟨[], []⟩ []).2.2.2 rfl rfl⟩
  · exact ((C9_relationship_summary "T" ⟨[⟨"A", "PR_FS", 0⟩], [⟨"B", "PR_SS", 0⟩]⟩ []).1
      (by simp) (by simp)).trans (by decide)
  · exact ((C9_relationship_summary "T" ⟨[⟨"A", "PR_FS", 0⟩], []⟩ []).2.1
      (by simp) rfl).trans (by decide)
  · exact ((C9_relationship_summary "T" ⟨[], [⟨"B", "PR_SS", 0⟩]⟩ []).2.2.1
      rfl (by simp)).trans (by decide)

/-! ## Claim C7: the schedule metrics invariants -/

/-- C7: for every list of enriched tasks the schedule metrics satisfy
`completed + in_progress + not_started == total`, where `completed` counts
tasks with `percent_complete == 100` and `in_progress` counts tasks with
`0 < percent_complete < 100`; `percent_complete` equals
`round(completed / total * 100, 2)` when `total > 0` and equals `0` when
`total == 0` (no division-by-zero failure). -/
theorem C7_schedule_metrics (tasks : List EnhancedTask) :
    (_calculate_schedule_metrics tasks).completed_tasks +
        (_calculate_schedule_metrics tasks).in_progress_tasks +
        (_calculate_schedule_metrics tasks).not_started_tasks =
      (_calculate_schedule_metrics tasks).total_tasks ∧
    (_calculate_schedule_metrics tasks).total_tasks = tasks.length ∧
    (_calculate_schedule_metrics tasks).completed_tasks =
      tasks.countP (fun t => t.percent_complete = 100) ∧
    (_calculate_schedule_metrics tasks).in_progress_tasks =
      tasks.countP (fun t => 0 < t.percent_complete && t.percent_complete < 100) ∧
    (_calculate_schedule_metrics tasks).percent_complete =
      (if 0 < (_calculate_schedule_metrics tasks).total_tasks then
        pyRound2 (((_calculate_schedule_metrics tasks).completed_tasks : ℚ) /
          ((_calculate_schedule_metrics tasks).total_tasks : ℚ) * 100)
      else 0) := by
  refine ⟨?_, rfl, rfl, rfl, ?_⟩
  · have h : ∀ a b t : ℤ, a + b + (t - a - b) = t := by
      intro a b t
      ring
    exact h _ _ _
  · have h0 : pyRound2 0 = 0 := by
      have hr : roundHalfEven (0 * 100) = 0 := by
        rw [roundHalfEven]
        norm_num [Rat.floor]
      rw [pyRound2, hr]
      norm_num
    have hre : (_calculate_schedule_metrics tasks).percent_complete =
        pyRound2 (if 0 < (_calculate_schedule_metrics tasks).total_tasks then
          ((_calculate_schedule_metrics tasks).completed_tasks : ℚ) /
            ((_calculate_schedule_metrics tasks).total_tasks : ℚ) * 100 else 0) := rfl
    rw [hre, apply_ite pyRound2, h0]

/-! ## Claim C6: the critical path identifier -/

theorem pyOrEmpty_eq (s : String) : pyOrEmpty s = s := by
  rw [pyOrEmpty]
  split
  · rfl
  · rename_i h
    rw [not_not] at h
    exact h.symm

theorem criticalSortKey_eq (t : EnhancedTask) : criticalSortKey t = t.start_target :=
  pyOrEmpty_eq t.start_target

theorem string_empty_le (s : String) : "" ≤ s := by
  rw [String.le_iff_toList_le]
  exact List.nil_le

/-- C6: the critical-path output contains exactly the enriched tasks whose
total float is `≤ 0`, arranged in non-decreasing lexical order of their
target start date string, with tasks whose target start date is empty
ordered first. -/
theorem C6_critical_path (tasks : List EnhancedTask) :
    (_identify_critical_path tasks).Perm (tasks.filter (fun t => t.float_total ≤ 0)) ∧
    (_identify_critical_path tasks).Sorted (fun a b => a.start_target ≤ b.start_target) ∧
    (_identify_critical_path tasks).Pairwise
      (fun a b => b.start_target = "" → a.start_target = "") := by
  have htrans : ∀ a b c : EnhancedTask,
      (criticalSortKey a ≤ criticalSortKey b : Bool) = true →
      (criticalSortKey b ≤ criticalSortKey c : Bool) = true →
      (criticalSortKey a ≤ criticalSortKey c : Bool) = true := by
    intro a b c h1 h2
    simp only [decide_eq_true_eq] at h1 h2 ⊢
    exact le_trans h1 h2
  have htotal : ∀ a b : EnhancedTask,
      ((criticalSortKey a ≤ criticalSortKey b : Bool) ||
        (criticalSortKey b ≤ criticalSortKey a : Bool)) = true := by
    intro a b
    rcases le_total (criticalSortKey a) (criticalSortKey b) with h | h <;> simp [h]
  have hsorted := @List.sorted_mergeSort EnhancedTask
    (fun a b : EnhancedTask => criticalSortKey a ≤ criticalSortKey b)
    htrans htotal (tasks.filter (fun t => t.float_total ≤ 0))
  have hsorted2 : (_identify_critical_path tasks).Sorted
      (fun a b => a.start_target ≤ b.start_target) := by
    rw [_identify_critical_path]
    refine hsorted.imp ?_
    intro a b h
    simp only [decide_eq_true_eq, criticalSortKey_eq] at h
    exact h
  refine ⟨?_, hsorted2, ?_⟩
  · rw [_identify_critical_path]
    exact List.mergeSort_perm _ _
  · refine hsorted2.imp ?_
    intro a b h hb
    rw [hb] at h
    exact le_antisymm h (string_empty_le a.start_target)

end Xer
